import Mathlib

/-!
Verification of the storage-provisioner CSI attach controller
(`pkg/controller/controller.go` and `cmd/csi-attacher/main.go`) against its
natural-language specification.

The Go code is shallowly embedded: the object types become Lean structures
(object metadata is narrowed to the fields the controller reads or writes:
name and resourceVersion; the remaining spec/status payload is represented by
the fields the controller compares), the event handlers and worker-loop
iterations become pure functions returning the list of queue operations they
perform, and `Run`'s startup gate becomes a function from the cache-sync
outcome to the set of worker loops it starts.
-/

/-- `storage.VolumeError`: a status error carried by a VolumeAttachment,
with a timestamp (`metav1.Time`, modelled as a Nat) and a message. -/
structure VolumeError where
  time : Nat
  message : String
deriving DecidableEq, Repr

/-- `storage.VolumeAttachmentSource`: reference to the volume that should be
attached; `persistentVolumeName` is a nullable pointer in Go. -/
structure VolumeAttachmentSource where
  persistentVolumeName : Option String
deriving DecidableEq, Repr

/-- `storage.VolumeAttachmentSpec`: attacher identity, source volume and
node name. -/
structure VolumeAttachmentSpec where
  attacher : String
  source : VolumeAttachmentSource
  nodeName : String
deriving DecidableEq, Repr

/-- `storage.VolumeAttachmentStatus`: attached flag, attachment metadata and
the two optional controller-written error fields. -/
structure VolumeAttachmentStatus where
  attached : Bool
  attachmentMetadata : List (String × String)
  attachError : Option VolumeError
  detachError : Option VolumeError
deriving DecidableEq, Repr

/-- `storage.VolumeAttachment`: the AttachmentRecord. Object metadata is
narrowed to the fields the controller uses: `name` (the queue key) and
`resourceVersion`. -/
structure VolumeAttachment where
  name : String
  resourceVersion : String
  spec : VolumeAttachmentSpec
  status : VolumeAttachmentStatus
deriving DecidableEq, Repr

/-- `v1.PersistentVolume`: the TargetRecord. The controller never inspects
its payload beyond the name, so the rest is kept opaque. -/
structure PersistentVolume where
  name : String
  payload : String
deriving DecidableEq, Repr

/-- `shouldEnqueueVAChange` from `pkg/controller/controller.go`:
decides whether a changed VolumeAttachment should be enqueued, filtering out
changes confined to `Status.AttachError` / `Status.DetachError`.
`equality.Semantic.DeepEqual` on the embedded record is structural
equality. -/
def shouldEnqueueVAChange (old new : VolumeAttachment) : Bool :=
  if old.resourceVersion = new.resourceVersion then
    true
  else if new.status.attachError = none ∧ new.status.detachError = none ∧
      old.status.attachError = none ∧ old.status.detachError = none then
    true
  else
    let sanitized : VolumeAttachment :=
      { new with
        resourceVersion := old.resourceVersion,
        status := { new.status with
                      attachError := old.status.attachError,
                      detachError := old.status.detachError } }
    if old = sanitized then false else true

/-- The Change Filter as the spec words it (§4.2, exact decision table):
step 1 the resourceVersion short-circuit, step 2 the all-errors-absent test
stated as "neither old nor new records carry an attach-error or detach-error
status", step 3 the sanitized deep-equality test. Used only to compare the
source function against the spec. -/
def changeFilterSpec (old new : VolumeAttachment) : Bool :=
  if old.resourceVersion = new.resourceVersion then
    true
  else if (old.status.attachError = none ∧ old.status.detachError = none) ∧
      (new.status.attachError = none ∧ new.status.detachError = none) then
    true
  else
    let sanitized : VolumeAttachment :=
      { new with
        resourceVersion := old.resourceVersion,
        status := { new.status with
                      attachError := old.status.attachError,
                      detachError := old.status.detachError } }
    if sanitized = old then false else true

/-- An enqueue effect: a key added to the VolumeAttachment queue or to the
PersistentVolume queue. -/
inductive Enqueue where
  | vaQ (key : String)
  | pvQ (key : String)
deriving DecidableEq, Repr

/-- `vaAdded`: a VolumeAttachment creation enqueues the attachment's name
into the VA queue. -/
def vaAdded (va : VolumeAttachment) : List Enqueue :=
  [Enqueue.vaQ va.name]

/-- `vaUpdated`: a VolumeAttachment update enqueues the new attachment's
name into the VA queue when `shouldEnqueueVAChange` accepts it, otherwise
it is ignored. -/
def vaUpdated (old new : VolumeAttachment) : List Enqueue :=
  if shouldEnqueueVAChange old new then [Enqueue.vaQ new.name] else []

/-- `vaDeleted`: a VolumeAttachment deletion enqueues the referenced
PersistentVolume's name into the PV queue, provided the record is non-nil
and carries a resolved `Spec.Source.PersistentVolumeName`. The Go nil
pointer is modelled by `Option`. -/
def vaDeleted (obj : Option VolumeAttachment) : List Enqueue :=
  match obj with
  | none => []
  | some va =>
    match va.spec.source.persistentVolumeName with
    | some pvName => [Enqueue.pvQ pvName]
    | none => []

/-- `pvAdded`: a PersistentVolume creation enqueues the PV's name. -/
def pvAdded (pv : PersistentVolume) : List Enqueue :=
  [Enqueue.pvQ pv.name]

/-- `pvUpdated`: a PersistentVolume update enqueues the new PV's name;
the old object is ignored. -/
def pvUpdated (_old new : PersistentVolume) : List Enqueue :=
  [Enqueue.pvQ new.name]

/-- The event-handler registration for the VolumeAttachment informer in
`NewCSIAttachController`: add, update and delete handlers are all set. -/
structure VAEventHandlers where
  addFunc : VolumeAttachment → List Enqueue
  updateFunc : VolumeAttachment → VolumeAttachment → List Enqueue
  deleteFunc : Option (Option VolumeAttachment → List Enqueue)

/-- The event-handler registration for the PersistentVolume informer in
`NewCSIAttachController`: only add and update handlers are set; the delete
handler is absent (commented out in the source). -/
structure PVEventHandlers where
  addFunc : PersistentVolume → List Enqueue
  updateFunc : PersistentVolume → PersistentVolume → List Enqueue
  deleteFunc : Option (PersistentVolume → List Enqueue)

/-- The `cache.ResourceEventHandlerFuncs` registered on the
VolumeAttachment informer. -/
def vaEventHandlers : VAEventHandlers :=
  { addFunc := vaAdded, updateFunc := vaUpdated, deleteFunc := some vaDeleted }

/-- The `cache.ResourceEventHandlerFuncs` registered on the
PersistentVolume informer: `DeleteFunc` is not registered. -/
def pvEventHandlers : PVEventHandlers :=
  { addFunc := pvAdded, updateFunc := pvUpdated, deleteFunc := none }

/-- Effect of delivering a PersistentVolume delete notification to the
registered handlers: with no delete handler registered, nothing runs. -/
def pvDeleteNotification (pv : PersistentVolume) : List Enqueue :=
  match pvEventHandlers.deleteFunc with
  | none => []
  | some f => f pv

/-- Result of a lister `Get`: the object, a not-found error, or any other
error (`apierrs.IsNotFound` distinguishes the two error cases). -/
inductive GetResult (α : Type) where
  | found (x : α)
  | notFound
  | otherError
deriving DecidableEq, Repr

/-- A rate-limiting workqueue operation performed by a dispatch
iteration. -/
inductive QueueOp where
  | add (key : String)
  | addRateLimited (key : String)
  | done (key : String)
deriving DecidableEq, Repr

/-- Whether a queue operation is a `Done` call. -/
def QueueOp.isDone : QueueOp → Bool
  | QueueOp.done _ => true
  | _ => false

/-- Outcome of one dispatch iteration over the VA queue: the queue
operations performed, in execution order, and the Handler invocation
(`SyncNewOrUpdatedVolumeAttachment`) if any. -/
structure VAIteration where
  ops : List QueueOp
  handlerCall : Option VolumeAttachment
deriving DecidableEq, Repr

/-- Outcome of one dispatch iteration over the PV queue. -/
structure PVIteration where
  ops : List QueueOp
  handlerCall : Option PersistentVolume
deriving DecidableEq, Repr

/-- `syncVA`: one iteration of a VA worker. `popped = none` models
`Get` returning `quit = true` (the loop exits before the `defer Done` is
registered). Otherwise `Done key` is deferred; a not-found lookup returns
silently, any other lookup error performs `AddRateLimited key`, a record
whose `Spec.Attacher` differs from the controller's `attacherName` is
skipped, and otherwise the Handler is invoked on the record. -/
def syncVA (attacherName : String) (get : String → GetResult VolumeAttachment)
    (popped : Option String) : VAIteration :=
  match popped with
  | none => { ops := [], handlerCall := none }
  | some key =>
    match get key with
    | GetResult.notFound => { ops := [QueueOp.done key], handlerCall := none }
    | GetResult.otherError =>
        { ops := [QueueOp.addRateLimited key, QueueOp.done key], handlerCall := none }
    | GetResult.found va =>
        if va.spec.attacher ≠ attacherName then
          { ops := [QueueOp.done key], handlerCall := none }
        else
          { ops := [QueueOp.done key], handlerCall := some va }

/-- `syncPV`: one iteration of a PV worker. Same shape as `syncVA` but
with no attacher-identity guard: every found record is handed to the
Handler (`SyncNewOrUpdatedPersistentVolume`). -/
def syncPV (get : String → GetResult PersistentVolume)
    (popped : Option String) : PVIteration :=
  match popped with
  | none => { ops := [], handlerCall := none }
  | some key =>
    match get key with
    | GetResult.notFound => { ops := [QueueOp.done key], handlerCall := none }
    | GetResult.otherError =>
        { ops := [QueueOp.addRateLimited key, QueueOp.done key], handlerCall := none }
    | GetResult.found pv =>
        { ops := [QueueOp.done key], handlerCall := some pv }

/-- A worker loop started by `Run`: one VA worker or one PV worker, with
its index in the `for i := 0; i < workers; i++` loop. -/
inductive Worker where
  | vaWorker (i : Nat)
  | pvWorker (i : Nat)
deriving DecidableEq, Repr

/-- `Run`'s startup gate: if `cache.WaitForCacheSync` fails, `Run` logs and
returns before the worker-starting loop, so no worker goroutine is started;
otherwise it starts one VA worker and one PV worker per loop index. -/
def runStartedWorkers (cacheSyncOk : Bool) (workers : Nat) : List Worker :=
  if cacheSyncOk then
    (List.range workers).flatMap (fun i => [Worker.vaWorker i, Worker.pvWorker i])
  else
    []

/-- Dispatch iterations of a whole `Run`: every dispatch iteration happens
inside some started worker's loop (`wait.Until(ctrl.syncVA, ...)` /
`wait.Until(ctrl.syncPV, ...)`), so the run's VA-handler invocations are
the union over started workers of that worker's iterations' handler
calls. `iterations w` abstracts what each started worker would do. -/
def runHandlerCalls (cacheSyncOk : Bool) (workers : Nat)
    (iterations : Worker → List (Option VolumeAttachment × Option PersistentVolume)) :
    List (Option VolumeAttachment × Option PersistentVolume) :=
  (runStartedWorkers cacheSyncOk workers).flatMap iterations

/-- Default of the `retry-interval-start` flag in `cmd/csi-attacher/main.go`:
`time.Second`, in nanoseconds. -/
def retryIntervalStartDefault : Nat := 1000000000

/-- Default of the `retry-interval-max` flag in `cmd/csi-attacher/main.go`:
`5 * time.Minute`, in nanoseconds. -/
def retryIntervalMaxDefault : Nat := 300000000000

/-- Per-key failure counters of one rate-limiting queue. -/
structure RateLimiterState where
  failures : String → Nat

/-- Modelled from the spec: the exponential backoff rate limiter behind
`AddRateLimited` (`workqueue.NewItemExponentialFailureRateLimiter`, library
code not part of this repository's sources, constructed in
`cmd/csi-attacher/main.go` with `retryIntervalStart` and
`retryIntervalMax`). Per the spec (§4.3): "insert key after an exponential
backoff delay derived from a per-key failure counter; delay starts at a
configured minimum, doubles per consecutive failure, caps at a configured
maximum; counter is per key, independent across keys." One call returns the
delay for this failure and advances the key's counter. -/
def rateLimiterWhen (base maxDelay : Nat) (s : RateLimiterState) (k : String) :
    Nat × RateLimiterState :=
  (min (base * 2 ^ s.failures k) maxDelay,
   ⟨fun k' => if k' = k then s.failures k + 1 else s.failures k'⟩)

/-- Modelled from the spec: `Forget(key)` "resets the failure counter to
zero". -/
def rateLimiterForget (s : RateLimiterState) (k : String) : RateLimiterState :=
  ⟨fun k' => if k' = k then 0 else s.failures k'⟩

/-- State of the limiter after `n` consecutive `AddRateLimited k` calls. -/
def rateLimiterAfter (base maxDelay : Nat) (s : RateLimiterState) (k : String) :
    Nat → RateLimiterState
  | 0 => s
  | n + 1 => (rateLimiterWhen base maxDelay (rateLimiterAfter base maxDelay s k n) k).2

/-- The delay applied to the `n`-th consecutive `AddRateLimited k` call
(1-based): the delay returned by `When` in state reached after `n - 1`
calls. -/
def nthDelay (base maxDelay : Nat) (s : RateLimiterState) (k : String) (n : Nat) : Nat :=
  (rateLimiterWhen base maxDelay (rateLimiterAfter base maxDelay s k (n - 1)) k).1

/-- A sample AttachmentRecord carrying an attach error, owned by attacher
`csi.test`, referencing `pv-1`. -/
def vaSample : VolumeAttachment :=
  { name := "va-1"
    resourceVersion := "7"
    spec := { attacher := "csi.test"
              source := { persistentVolumeName := some "pv-1" }
              nodeName := "node-1" }
    status := { attached := false
                attachmentMetadata := []
                attachError := some { time := 3, message := "attach failed" }
                detachError := none } }

/-- `vaSample` after the controller cleared its attach error: a new
resourceVersion, no error fields, everything else unchanged. -/
def vaErrCleared : VolumeAttachment :=
  { vaSample with
    resourceVersion := "8"
    status := { vaSample.status with attachError := none } }

/-- `vaSample` with its attach error cleared but the same resourceVersion,
as a periodic resync would redeliver it. -/
def vaErrClearedSameRV : VolumeAttachment :=
  { vaSample with status := { vaSample.status with attachError := none } }

/-- An AttachmentRecord whose source carries no resolved
PersistentVolume reference. -/
def vaNoPV : VolumeAttachment :=
  { vaSample with spec := { vaSample.spec with source := { persistentVolumeName := none } } }

/-- A sample TargetRecord. -/
def pvSample : PersistentVolume := { name := "pv-1", payload := "spec" }

/-- A VA cache in which every lookup reports not-found. -/
def getVANotFound : String → GetResult VolumeAttachment := fun _ => GetResult.notFound

/-- A VA cache in which every lookup fails with a non-not-found error. -/
def getVAErr : String → GetResult VolumeAttachment := fun _ => GetResult.otherError

/-- A VA cache in which every lookup returns `vaSample`. -/
def getVAFound : String → GetResult VolumeAttachment := fun _ => GetResult.found vaSample

/-- A PV cache in which every lookup reports not-found. -/
def getPVNotFound : String → GetResult PersistentVolume := fun _ => GetResult.notFound

/-- A PV cache in which every lookup returns `pvSample`. -/
def getPVFound : String → GetResult PersistentVolume := fun _ => GetResult.found pvSample

/-- A rate limiter with all per-key failure counters at zero. -/
def freshLimiter : RateLimiterState := ⟨fun _ => 0⟩

/-- C1: the Change Filter `shouldEnqueueVAChange` implements exactly the
spec's three-step decision table: equal resource versions → enqueue; else
all four attach/detach-error fields absent → enqueue; else do-not-enqueue
exactly when the sanitized copy of `new` (resourceVersion and error fields
overwritten with `old`'s) is deep-equal to `old`. -/
theorem shouldEnqueueVAChange_matches_spec (old new : VolumeAttachment) :
    shouldEnqueueVAChange old new = changeFilterSpec old new := by
  simp only [shouldEnqueueVAChange, changeFilterSpec]
  split_ifs with h1 h2 h3 h4 h5 h6 h7 h8 h9 <;> first
    | rfl
    | (exfalso; tauto)

/-- C2: whenever old and new carry the same resourceVersion, the Change
Filter returns enqueue, regardless of every other field. -/
theorem shouldEnqueueVAChange_sameRV (old new : VolumeAttachment)
    (h : old.resourceVersion = new.resourceVersion) :
    shouldEnqueueVAChange old new = true := by
  simp [shouldEnqueueVAChange, h]

/-- Witness for C2: a pair differing in the attach-error field but sharing
the resourceVersion is enqueued. -/
theorem shouldEnqueueVAChange_sameRV_witness :
    shouldEnqueueVAChange vaSample vaErrClearedSameRV = true :=
  shouldEnqueueVAChange_sameRV vaSample vaErrClearedSameRV rfl

/-- Counterexample for C3: deleting an AttachmentRecord whose source has no
resolved PersistentVolume reference enqueues nothing, so delete events are
not always enqueued as the claim states. -/
theorem vaDeleted_noPV_counterexample : vaDeleted (some vaNoPV) = [] := rfl

/-- C3 (amended): an AttachmentRecord delete notification enqueues the
referenced target's key into the PV queue when the record carries a
resolved target reference; when the reference is absent (or the delivered
object is nil) nothing is enqueued; and in no case is any key enqueued
into the attachment queue. -/
theorem vaDeleted_enqueues_target (obj : Option VolumeAttachment) :
    (∀ va n, obj = some va → va.spec.source.persistentVolumeName = some n →
        vaDeleted obj = [Enqueue.pvQ n]) ∧
    (∀ va, obj = some va → va.spec.source.persistentVolumeName = none →
        vaDeleted obj = []) ∧
    (∀ k, Enqueue.vaQ k ∉ vaDeleted obj) := by
  refine ⟨?_, ?_, ?_⟩
  · intro va n hobj hn
    subst hobj
    simp [vaDeleted, hn]
  · intro va hobj hn
    subst hobj
    simp [vaDeleted, hn]
  · intro k hk
    match obj with
    | none => simp [vaDeleted] at hk
    | some va =>
      rcases h : va.spec.source.persistentVolumeName with _ | pvName <;>
        simp [vaDeleted, h] at hk

/-- Witness for C3 (amended): deleting `vaSample`, whose source references
`pv-1`, enqueues exactly `pv-1` into the PV queue. -/
theorem vaDeleted_enqueues_target_witness :
    vaDeleted (some vaSample) = [Enqueue.pvQ "pv-1"] :=
  (vaDeleted_enqueues_target (some vaSample)).1 vaSample "pv-1" rfl rfl

/-- C4: when the cache-sync wait fails, `Run` starts no worker loop, so no
dispatch iteration occurs and no Handler sync operation is ever called in
that run. -/
theorem run_syncFailure_no_workers (workers : Nat)
    (iterations : Worker → List (Option VolumeAttachment × Option PersistentVolume)) :
    runStartedWorkers false workers = [] ∧
    runHandlerCalls false workers iterations = [] := by
  constructor
  · simp [runStartedWorkers]
  · simp [runHandlerCalls, runStartedWorkers]

/-- C5: in every dispatch iteration over a popped key, a not-found cache
lookup ends the iteration with no requeue and no Handler invocation, and
any other lookup error performs `AddRateLimited` on the key and ends the
iteration with no Handler invocation — on the VA and the PV path alike. -/
theorem sync_lookup_error_handling (aName key : String)
    (getVA : String → GetResult VolumeAttachment)
    (getPV : String → GetResult PersistentVolume) :
    (getVA key = GetResult.notFound →
        (syncVA aName getVA (some key)).ops = [QueueOp.done key] ∧
        (syncVA aName getVA (some key)).handlerCall = none) ∧
    (getVA key = GetResult.otherError →
        (syncVA aName getVA (some key)).ops =
          [QueueOp.addRateLimited key, QueueOp.done key] ∧
        (syncVA aName getVA (some key)).handlerCall = none) ∧
    (getPV key = GetResult.notFound →
        (syncPV getPV (some key)).ops = [QueueOp.done key] ∧
        (syncPV getPV (some key)).handlerCall = none) ∧
    (getPV key = GetResult.otherError →
        (syncPV getPV (some key)).ops =
          [QueueOp.addRateLimited key, QueueOp.done key] ∧
        (syncPV getPV (some key)).handlerCall = none) := by
  refine ⟨?_, ?_, ?_, ?_⟩ <;> intro h <;> simp [syncVA, syncPV, h]

/-- Witness for C5: with a cache reporting not-found, the VA iteration only
releases the key and calls no Handler. -/
theorem sync_lookup_error_handling_witness :
    (syncVA "csi.test" getVANotFound (some "va-1")).ops = [QueueOp.done "va-1"] ∧
    (syncVA "csi.test" getVANotFound (some "va-1")).handlerCall = none :=
  (sync_lookup_error_handling "csi.test" "va-1" getVANotFound getPVNotFound).1 rfl

/-- C6: on the VA path, a found record whose attacher identity differs from
the controller's configured identity is skipped — no Handler call, no
requeue, only the `Done` release — while a matching identity leads to the
Handler being invoked on the record; the PV path has no such guard and
always invokes the Handler on a found record. -/
theorem syncVA_attacher_guard (aName key : String)
    (getVA : String → GetResult VolumeAttachment)
    (getPV : String → GetResult PersistentVolume)
    (va : VolumeAttachment) (pv : PersistentVolume) :
    (getVA key = GetResult.found va → va.spec.attacher ≠ aName →
        (syncVA aName getVA (some key)).ops = [QueueOp.done key] ∧
        (syncVA aName getVA (some key)).handlerCall = none) ∧
    (getVA key = GetResult.found va → va.spec.attacher = aName →
        (syncVA aName getVA (some key)).ops = [QueueOp.done key] ∧
        (syncVA aName getVA (some key)).handlerCall = some va) ∧
    (getPV key = GetResult.found pv →
        (syncPV getPV (some key)).handlerCall = some pv) := by
  refine ⟨?_, ?_, ?_⟩
  · intro h hne
    simp [syncVA, h, hne]
  · intro h heq
    simp [syncVA, h, heq]
  · intro h
    simp [syncPV, h]

/-- Witness for C6: with the cache returning `vaSample` (attacher
`csi.test`) to a controller configured as `csi.test`, the Handler is
invoked on the record. -/
theorem syncVA_attacher_guard_witness :
    (syncVA "csi.test" getVAFound (some "va-1")).ops = [QueueOp.done "va-1"] ∧
    (syncVA "csi.test" getVAFound (some "va-1")).handlerCall = some vaSample :=
  (syncVA_attacher_guard "csi.test" "va-1" getVAFound getPVFound vaSample pvSample).2.1
    rfl rfl

/-- C7: every dispatch iteration that pops a key performs `Done key`
exactly once, on every exit path and whatever the cache lookup returns;
when the pop reports shutdown, no queue operation (in particular no `Done`)
is performed. -/
theorem sync_done_exactly_once (aName key : String)
    (getVA : String → GetResult VolumeAttachment)
    (getPV : String → GetResult PersistentVolume) :
    ((syncVA aName getVA (some key)).ops.count (QueueOp.done key) = 1 ∧
     (syncVA aName getVA (some key)).ops.countP (fun op => op.isDone) = 1) ∧
    ((syncPV getPV (some key)).ops.count (QueueOp.done key) = 1 ∧
     (syncPV getPV (some key)).ops.countP (fun op => op.isDone) = 1) ∧
    ((syncVA aName getVA none).ops = [] ∧ (syncPV getPV none).ops = []) := by
  refine ⟨?_, ?_, rfl, rfl⟩
  · cases h : getVA key with
    | found va =>
      by_cases hg : va.spec.attacher = aName <;>
        simp [syncVA, h, hg, List.count_cons, List.count_nil, List.countP_cons, List.countP_nil, QueueOp.isDone]
    | notFound => simp [syncVA, h, List.count_cons, List.count_nil, List.countP_cons, List.countP_nil, QueueOp.isDone]
    | otherError => simp [syncVA, h, List.count_cons, List.count_nil, List.countP_cons, List.countP_nil, QueueOp.isDone]
  · cases h : getPV key with
    | found pv => simp [syncPV, h, List.count_cons, List.count_nil, List.countP_cons, List.countP_nil, QueueOp.isDone]
    | notFound => simp [syncPV, h, List.count_cons, List.count_nil, List.countP_cons, List.countP_nil, QueueOp.isDone]
    | otherError => simp [syncPV, h, List.count_cons, List.count_nil, List.countP_cons, List.countP_nil, QueueOp.isDone]

/-- After `n` consecutive `When` calls on key `k`, the key's failure
counter has advanced by `n`. -/
theorem rateLimiterAfter_failures_self (base maxDelay : Nat) (s : RateLimiterState)
    (k : String) (n : Nat) :
    (rateLimiterAfter base maxDelay s k n).failures k = s.failures k + n := by
  induction n with
  | zero => rfl
  | succ n ih =>
    simp [rateLimiterAfter, rateLimiterWhen, ih]
    omega

/-- `When` calls on key `k` leave every other key's failure counter
unchanged. -/
theorem rateLimiterAfter_failures_other (base maxDelay : Nat) (s : RateLimiterState)
    (k k' : String) (hk : k' ≠ k) (n : Nat) :
    (rateLimiterAfter base maxDelay s k n).failures k' = s.failures k' := by
  induction n with
  | zero => rfl
  | succ n ih =>
    simp [rateLimiterAfter, rateLimiterWhen, hk, ih]

/-- C8: starting from a fresh failure counter for key `K`, the delay applied
to the `N`-th consecutive `AddRateLimited K` call under the default
configuration (minimum 1s, maximum 5m) is `min (1s * 2 ^ (N - 1)) 5m`;
the counter is per key — the calls leave every other key's counter
unchanged — and `Forget K` resets it to zero. -/
theorem addRateLimited_nth_delay (k : String) (N : Nat) (_hN : 1 ≤ N)
    (s : RateLimiterState) (hfresh : s.failures k = 0) :
    nthDelay retryIntervalStartDefault retryIntervalMaxDefault s k N =
      min (retryIntervalStartDefault * 2 ^ (N - 1)) retryIntervalMaxDefault ∧
    (∀ k', k' ≠ k → ∀ n,
        (rateLimiterAfter retryIntervalStartDefault retryIntervalMaxDefault s k n).failures k' =
          s.failures k') ∧
    (rateLimiterForget
        (rateLimiterAfter retryIntervalStartDefault retryIntervalMaxDefault s k N) k).failures k
      = 0 := by
  refine ⟨?_, ?_, ?_⟩
  · unfold nthDelay rateLimiterWhen
    rw [rateLimiterAfter_failures_self, hfresh]
    simp
  · intro k' hk n
    exact rateLimiterAfter_failures_other _ _ s k k' hk n
  · simp [rateLimiterForget]

/-- Witness for C8: the third consecutive `AddRateLimited` on key `pv-1`
from a fresh limiter is delayed by `min (1s * 4) 5m = 4s`. -/
theorem addRateLimited_nth_delay_witness :
    nthDelay retryIntervalStartDefault retryIntervalMaxDefault freshLimiter "pv-1" 3 =
      min (retryIntervalStartDefault * 2 ^ (3 - 1)) retryIntervalMaxDefault ∧
    (∀ k', k' ≠ "pv-1" → ∀ n,
        (rateLimiterAfter retryIntervalStartDefault retryIntervalMaxDefault
            freshLimiter "pv-1" n).failures k' = freshLimiter.failures k') ∧
    (rateLimiterForget
        (rateLimiterAfter retryIntervalStartDefault retryIntervalMaxDefault
          freshLimiter "pv-1" 3) "pv-1").failures "pv-1" = 0 :=
  addRateLimited_nth_delay "pv-1" 3 (by decide) freshLimiter rfl

/-- C9: no delete handler is registered on the PersistentVolume informer,
so a TargetRecord delete notification runs no handler and enqueues
nothing into either queue. -/
theorem pv_delete_ignored (pv : PersistentVolume) :
    pvEventHandlers.deleteFunc = none ∧ pvDeleteNotification pv = [] :=
  ⟨rfl, rfl⟩

/-- C10: an update whose only changes are a new resourceVersion and the
clearing of old's attach or detach error status (new carries no error, old
carries at least one, every other field identical) is suppressed by the
Change Filter. -/
theorem shouldEnqueueVAChange_clearedError (old new : VolumeAttachment)
    (hrv : old.resourceVersion ≠ new.resourceVersion)
    (holdErr : old.status.attachError ≠ none ∨ old.status.detachError ≠ none)
    (hnewA : new.status.attachError = none) (hnewD : new.status.detachError = none)
    (hname : old.name = new.name) (hspec : old.spec = new.spec)
    (hattached : old.status.attached = new.status.attached)
    (hmeta : old.status.attachmentMetadata = new.status.attachmentMetadata) :
    shouldEnqueueVAChange old new = false := by
  obtain ⟨onm, orv, osp, oat, om, oae, ode⟩ := old
  obtain ⟨nnm, nrv, nsp, nat, nm, nae, nde⟩ := new
  simp only at hrv holdErr hnewA hnewD hname hspec hattached hmeta
  subst hnewA hnewD hname hspec hattached hmeta
  simp only [shouldEnqueueVAChange, hrv, if_false]
  rcases holdErr with h | h <;>
    simp [h]

/-- Witness for C10: clearing `vaSample`'s attach error with a bumped
resourceVersion (`vaErrCleared`) is not enqueued. -/
theorem shouldEnqueueVAChange_clearedError_witness :
    shouldEnqueueVAChange vaSample vaErrCleared = false :=
  shouldEnqueueVAChange_clearedError vaSample vaErrCleared (by decide)
    (Or.inl (by decide)) rfl rfl rfl rfl rfl rfl
